import Mathlib

/-!
Shallow embedding of the query-classification-and-dispatch workflow of the
reg-capital-fairness-agentic-rag repository.

The embedding covers:
- Python string primitives used by the code (`str.strip`, `str.upper`,
  `str.lower`, the `in` substring test), modelled over `List Char` with the
  ASCII case mapping; the queries and labels involved are ASCII.
- `FairnessAgent._assess_risk_level`, `FairnessAgent._requires_fairness_analysis`,
  `FairnessAgent._analyze_disparate_impact` and `FairnessAgent.invoke`
  (src/app/agents/fairness_agent.py).
- `CapitalAgent._requires_calculation`, `CapitalAgent._call_mesh_for_capital_calc`,
  `CapitalAgent._extract_calculations` and `CapitalAgent.invoke`
  (src/app/agents/capital_agent.py).
- `RegulatoryAgent._retrieve_context`, `RegulatoryAgent._extract_citations`
  and `RegulatoryAgent.invoke` (src/app/agents/regulatory_agent.py).
- `OpsAgent._generate_monitoring_plan` and `OpsAgent.invoke`
  (src/app/agents/ops_agent.py).
- `Orchestrator._classify_domain`, `Orchestrator._route_to_agent`, the
  conditional-edge table of `Orchestrator._build_graph`, the four placeholder
  node functions, and `Orchestrator.invoke` (src/app/agents/orchestrator.py).

External collaborators (the LLM completion call, the FAISS similarity search,
the mesh calculation call) are modelled by their outcome, passed in as an
`Except String` value: `.ok` is a normal return, `.error e` is a raised
exception carrying message `e`.  Python floats in the fairness thresholds and
the hard-coded metric literals are modelled as exact rationals; every
comparison the code performs on them has the same truth value for the exact
decimals as for their IEEE-754 counterparts.
-/

/-- ASCII whitespace recognised by Python's `str.strip()` (the queries and
labels of this system are ASCII). -/
def isSpaceChar (c : Char) : Bool :=
  c = ' ' || c = '\t' || c = '\n' || c = '\r' || c = '\x0b' || c = '\x0c'

/-- Model of Python `str.strip()`: drop leading and trailing whitespace. -/
def pyStrip (s : String) : String :=
  String.mk (((s.data.dropWhile isSpaceChar).reverse.dropWhile isSpaceChar).reverse)

/-- ASCII upper-casing of one character, as Python `str.upper()` does on ASCII. -/
def upperChar (c : Char) : Char :=
  if 'a' ≤ c ∧ c ≤ 'z' then Char.ofNat (c.toNat - 32) else c

/-- ASCII lower-casing of one character, as Python `str.lower()` does on ASCII. -/
def lowerChar (c : Char) : Char :=
  if 'A' ≤ c ∧ c ≤ 'Z' then Char.ofNat (c.toNat + 32) else c

/-- Model of Python `str.upper()` (ASCII). -/
def pyUpper (s : String) : String :=
  String.mk (s.data.map upperChar)

/-- Model of Python `str.lower()` (ASCII). -/
def pyLower (s : String) : String :=
  String.mk (s.data.map lowerChar)

/-- Whether `needle` occurs at the head of `hay`. -/
def startsWithList : List Char → List Char → Bool
  | _, [] => true
  | [], _ :: _ => false
  | a :: as, b :: bs => (a == b) && startsWithList as bs

/-- Whether `needle` occurs anywhere in `hay` (Python's `needle in hay`). -/
def containsList : List Char → List Char → Bool
  | hay, needle =>
    startsWithList hay needle ||
      match hay with
      | [] => false
      | _ :: rest => containsList rest needle

/-- Model of Python's substring test `needle in hay` on strings. -/
def pyContains (hay needle : String) : Bool :=
  containsList hay.data needle.data

/-! ### Fairness agent data model

A Python metrics dictionary is a finite association list from string keys to
values; the values the fairness code stores are strings, numbers, lists of
strings, string-to-string dictionaries, and the string-to-float
`disparate_impact_ratios` dictionary. -/

/-- Values stored in the fairness metrics dictionary. -/
inductive PyValue where
  | str (s : String)
  | num (q : ℚ)
  | strList (l : List String)
  | ratioDict (r : List (String × ℚ))
  | strDict (d : List (String × String))
deriving DecidableEq

/-- A Python dictionary from string keys to `PyValue`s, as an association
list (keys are unique in every dictionary the code builds). -/
def Metrics := List (String × PyValue)

instance : DecidableEq Metrics := inferInstanceAs (DecidableEq (List (String × PyValue)))

/-- Python dictionary lookup (`d[k]` / the found case of `d.get(k)`): first
binding of the key, if any. -/
def lookupValue : Metrics → String → Option PyValue
  | [], _ => none
  | (k, v) :: rest, key => if k = key then some v else lookupValue rest key

/-- Python `min` over a nonempty collection, seeded with its first element
(the running minimum is replaced only by a strictly smaller value, as CPython
does). -/
def pyMin : ℚ → List ℚ → ℚ
  | x, [] => x
  | x, y :: ys => pyMin (if y < x then y else x) ys

/-- The value `min_ratio` computed at fairness_agent.py line 149:
`min(ratios.values()) if ratios else 1.0`. -/
def min_ratio_of (ratios : List (String × ℚ)) : ℚ :=
  match ratios.map Prod.snd with
  | [] => 1
  | v :: vs => pyMin v vs

/-- The ratios dictionary read at fairness_agent.py line 148:
`metrics.get("disparate_impact_ratios", {})`.  The code only ever stores a
string-to-float dictionary under this key, so the non-`ratioDict` fallback is
never exercised. -/
def getRatios (m : Metrics) : List (String × ℚ) :=
  match lookupValue m "disparate_impact_ratios" with
  | some (PyValue.ratioDict r) => r
  | _ => []

/-- `FairnessAgent._assess_risk_level` (fairness_agent.py lines 135-158).
`none` models Python `None`; the empty dictionary is also falsy, so both
return `"UNKNOWN"`. -/
def assess_risk_level : Option Metrics → String
  | none => "UNKNOWN"
  | some m =>
    if m.isEmpty then "UNKNOWN"
    else
      let mr := min_ratio_of (getRatios m)
      if mr < mkRat 70 100 then "CRITICAL"
      else if mr < mkRat 80 100 then "HIGH"
      else if mr < mkRat 90 100 then "MEDIUM"
      else "LOW"

/-- Keyword list of `FairnessAgent._requires_fairness_analysis`
(fairness_agent.py lines 95-98). -/
def fairness_keywords : List String :=
  ["disparate", "bias", "discrimination", "fairness",
   "ecoa", "protected class", "adverse action", "redlining"]

/-- `FairnessAgent._requires_fairness_analysis` (fairness_agent.py lines
86-99): `any(keyword in query.lower() for keyword in fairness_keywords)`. -/
def requires_fairness_analysis (query : String) : Bool :=
  fairness_keywords.any (fun k => pyContains (pyLower query) k)

/-- Keyword list of `CapitalAgent._requires_calculation`
(capital_agent.py lines 95-98). -/
def calc_keywords : List String :=
  ["calculate", "compute", "estimate", "provision",
   "rwa", "cecl", "loss", "capital ratio", "stress"]

/-- `CapitalAgent._requires_calculation` (capital_agent.py lines 86-99). -/
def requires_calculation (query : String) : Bool :=
  calc_keywords.any (fun k => pyContains (pyLower query) k)

/-- The hard-coded metrics dictionary built in
`FairnessAgent._analyze_disparate_impact` (fairness_agent.py lines 113-128). -/
def fairness_metrics_literal : Metrics :=
  [("model", PyValue.str "consumer_credit_scorecard"),
   ("protected_classes_analyzed", PyValue.strList ["race", "gender", "age"]),
   ("disparate_impact_ratios", PyValue.ratioDict
     [("race_minority_vs_majority", mkRat 78 100),
      ("gender_female_vs_male", mkRat 92 100),
      ("age_older_vs_younger", mkRat 85 100)]),
   ("adverse_impact_threshold", PyValue.num (mkRat 80 100)),
   ("statistical_significance", PyValue.strDict
     [("race", "p < 0.01"), ("gender", "p = 0.15"), ("age", "p = 0.08")]),
   ("recommendation", PyValue.str "REVIEW REQUIRED - Race disparate impact ratio below threshold")]

/-- `FairnessAgent._analyze_disparate_impact` (fairness_agent.py lines
101-133): the body is a `try` block building the fixed dictionary; any
exception raised inside it (`outcome = .error _`) is caught and `None` is
returned. -/
def analyze_disparate_impact (outcome : Except String Unit) : Option Metrics :=
  match outcome with
  | Except.ok _ => some fairness_metrics_literal
  | Except.error _ => none

/-- Result dictionary of `FairnessAgent.invoke` (fairness_agent.py lines
78-84). -/
structure FairResult where
  agent : String
  query : String
  answer : String
  fairness_metrics : Option Metrics
  risk_level : String
deriving DecidableEq

/-- `FairnessAgent.invoke` (fairness_agent.py lines 34-84).  The disparate
impact analysis runs first (its exceptions are caught inside
`_analyze_disparate_impact`); the LLM call `self.llm.invoke(messages)` is not
wrapped in any handler, so `llmResp = .error e` propagates. -/
def fairness_invoke (analysisOutcome : Except String Unit)
    (llmResp : Except String String) (query : String) : Except String FairResult :=
  let needs_analysis := requires_fairness_analysis query
  let fairness_metrics : Option Metrics :=
    if needs_analysis then analyze_disparate_impact analysisOutcome else none
  match llmResp with
  | Except.error e => Except.error e
  | Except.ok answer =>
    Except.ok ⟨"fairness", query, answer, fairness_metrics,
      assess_risk_level fairness_metrics⟩

/-! ### Capital agent -/

/-- The hard-coded mesh result of `CapitalAgent._call_mesh_for_capital_calc`
(capital_agent.py lines 113-121). -/
structure MeshResult where
  model : String
  calculated_provision : ℚ
  pd_weighted_avg : ℚ
  lgd_weighted_avg : ℚ
  ead_total : ℚ
  confidence_interval : String
  scenario : String
deriving DecidableEq

/-- The literal dictionary built at capital_agent.py lines 113-121. -/
def capital_mesh_literal : MeshResult :=
  ⟨"cecl_commercial_loan_model", 1250000, mkRat 235 10000, mkRat 45 100,
   50000000, "95%", "baseline"⟩

/-- `CapitalAgent._call_mesh_for_capital_calc` (capital_agent.py lines
101-126): a `try` block producing the fixed dictionary; any exception raised
inside it is caught and `None` returned. -/
def call_mesh_for_capital_calc (outcome : Except String Unit) : Option MeshResult :=
  match outcome with
  | Except.ok _ => some capital_mesh_literal
  | Except.error _ => none

/-- `CapitalAgent._extract_calculations` (capital_agent.py lines 128-143):
each entry models one `{"type": ..., "mentioned": True}` dictionary. -/
def extract_calculations (answer : String) : List (String × Bool) :=
  (if pyContains (pyLower answer) "provision" then [("cecl_provision", true)] else []) ++
  (if pyContains (pyLower answer) "rwa" then [("rwa_calculation", true)] else [])

/-- Result dictionary of `CapitalAgent.invoke` (capital_agent.py lines
78-84). -/
structure CapResult where
  agent : String
  query : String
  answer : String
  mesh_results : Option MeshResult
  calculations : List (String × Bool)
deriving DecidableEq

/-- `CapitalAgent.invoke` (capital_agent.py lines 34-84).  Mesh failures are
caught inside `_call_mesh_for_capital_calc`; the LLM call is unguarded. -/
def capital_invoke (meshOutcome : Except String Unit)
    (llmResp : Except String String) (query : String) : Except String CapResult :=
  let needs_calculation := requires_calculation query
  let mesh_results : Option MeshResult :=
    if needs_calculation then call_mesh_for_capital_calc meshOutcome else none
  match llmResp with
  | Except.error e => Except.error e
  | Except.ok answer =>
    Except.ok ⟨"capital", query, answer, mesh_results, extract_calculations answer⟩

/-! ### Regulatory agent -/

/-- `RegulatoryAgent._extract_citations` (regulatory_agent.py lines 129-144):
case-sensitive substring checks on the raw answer. -/
def extract_citations (answer : String) : List String :=
  (if pyContains answer "SR 11-7" then ["SR 11-7"] else []) ++
  (if pyContains answer "Basel" then ["Basel III"] else [])

/-- The vector store, modelled by the outcome of its `similarity_search`
call: given the query and `k` it either returns the retrieved chunks or
raises. -/
def VectorStore := String → Nat → Except String (List String)

/-- `RegulatoryAgent._retrieve_context` (regulatory_agent.py lines 60-74):
an absent (falsy) vector store short-circuits to `[]`; the
`similarity_search` call itself is NOT wrapped in a `try`, so an exception it
raises propagates out of `_retrieve_context`. -/
def retrieve_context (vs : Option VectorStore) (query : String) (k : Nat) :
    Except String (List String) :=
  match vs with
  | none => Except.ok []
  | some search => search query k

/-- Result dictionary of `RegulatoryAgent.invoke` (regulatory_agent.py lines
121-127). -/
structure RegResult where
  agent : String
  query : String
  answer : String
  context : List String
  citations : List String
deriving DecidableEq

/-- `RegulatoryAgent.invoke` (regulatory_agent.py lines 76-127): retrieval
runs first with no exception handler around it, then the unguarded LLM
call. -/
def regulatory_invoke (vs : Option VectorStore) (k : Nat)
    (llmResp : Except String String) (query : String) : Except String RegResult :=
  match retrieve_context vs query k with
  | Except.error e => Except.error e
  | Except.ok context_docs =>
    match llmResp with
    | Except.error e => Except.error e
    | Except.ok answer =>
      Except.ok ⟨"regulatory", query, answer, context_docs, extract_citations answer⟩

/-! ### Ops agent -/

/-- `OpsAgent._generate_monitoring_plan` (ops_agent.py lines 60-68): a fixed
list of recommendations. -/
def generate_monitoring_plan : List String :=
  ["Monitor model performance metrics daily",
   "Track data quality scores (>95% completeness target)",
   "Alert on drift detection (PSI > 0.25)",
   "Review model logs for anomalies"]

/-- Result dictionary of `OpsAgent.invoke` (ops_agent.py lines 53-58). -/
structure OpsResult where
  agent : String
  query : String
  answer : String
  monitoring_recommendations : List String
deriving DecidableEq

/-- `OpsAgent.invoke` (ops_agent.py lines 29-58): a single unguarded LLM
call, then the fixed-shape result record. -/
def ops_invoke (llmResp : Except String String) (query : String) :
    Except String OpsResult :=
  match llmResp with
  | Except.error e => Except.error e
  | Except.ok answer =>
    Except.ok ⟨"ops", query, answer, generate_monitoring_plan⟩

/-! ### Orchestrator -/

/-- The `AgentState` TypedDict of orchestrator.py lines 21-28 (`messages`
kept abstract as a list of strings; `context` a string-keyed dictionary). -/
structure AgentState where
  messages : List String
  next : String
  query : String
  domain : String
  context : List (String × String)
  answer : String
deriving DecidableEq

/-- The valid-domain list of `Orchestrator._classify_domain`
(orchestrator.py line 65). -/
def valid_domains : List String := ["REGULATORY", "CAPITAL", "FAIRNESS", "OPS"]

/-- The domain-resolution step of `Orchestrator._classify_domain`
(orchestrator.py lines 62-67): trim and upper-case the raw LLM response text,
then coerce anything outside the four valid domains to `"REGULATORY"`. -/
def resolve_domain (raw : String) : String :=
  let domain := pyUpper (pyStrip raw)
  if domain ∈ valid_domains then domain else "REGULATORY"

/-- `Orchestrator._classify_domain` (orchestrator.py lines 43-73), given the
raw text of the LLM response: records the resolved domain and the lower-cased
routing key in the state. -/
def classify_domain (raw : String) (s : AgentState) : AgentState :=
  let domain := resolve_domain raw
  { s with domain := domain, next := pyLower domain }

/-- `Orchestrator._route_to_agent` (orchestrator.py lines 75-79).  The
`state.get("domain", "REGULATORY")` default only applies when the key is
missing; every state built by `invoke` carries the key, so the field itself
is read. -/
def route_to_agent (s : AgentState) : String :=
  pyLower s.domain

/-- The four specialist handler nodes added in `Orchestrator._build_graph`
(orchestrator.py lines 86-90). -/
inductive Handler where
  | regulatory
  | capital
  | fairness
  | ops
deriving DecidableEq

/-- The conditional-edge mapping of `Orchestrator._build_graph`
(orchestrator.py lines 95-104): routing keys outside the mapping have no
target node. -/
def dispatch_table (key : String) : Option Handler :=
  if key = "regulatory" then some Handler.regulatory
  else if key = "capital" then some Handler.capital
  else if key = "fairness" then some Handler.fairness
  else if key = "ops" then some Handler.ops
  else none

/-- `Orchestrator._call_regulatory_agent` (orchestrator.py lines 114-118). -/
def call_regulatory_agent (s : AgentState) : AgentState :=
  { s with answer := "Regulatory agent processing: " ++ s.query }

/-- `Orchestrator._call_capital_agent` (orchestrator.py lines 120-124). -/
def call_capital_agent (s : AgentState) : AgentState :=
  { s with answer := "Capital agent processing: " ++ s.query }

/-- `Orchestrator._call_fairness_agent` (orchestrator.py lines 126-130). -/
def call_fairness_agent (s : AgentState) : AgentState :=
  { s with answer := "Fairness agent processing: " ++ s.query }

/-- `Orchestrator._call_ops_agent` (orchestrator.py lines 132-136). -/
def call_ops_agent (s : AgentState) : AgentState :=
  { s with answer := "Ops agent processing: " ++ s.query }

/-- Node execution for the handler selected by the dispatch table. -/
def run_handler : Handler → AgentState → AgentState
  | Handler.regulatory, s => call_regulatory_agent s
  | Handler.capital, s => call_capital_agent s
  | Handler.fairness, s => call_fairness_agent s
  | Handler.ops, s => call_ops_agent s

/-- Execution of the compiled graph on one state: the orchestrator node runs
`_classify_domain`, the conditional edge keyed by `_route_to_agent` selects
the specialist node, and that node runs and the workflow ends.  A routing key
outside the edge mapping would make the graph raise. -/
def graph_invoke (raw : String) (s : AgentState) : Except String AgentState :=
  let s1 := classify_domain raw s
  match dispatch_table (route_to_agent s1) with
  | some h => Except.ok (run_handler h s1)
  | none => Except.error "invalid route key"

/-- The initial state built in `Orchestrator.invoke`
(orchestrator.py lines 147-154). -/
def initial_state (query : String) : AgentState :=
  ⟨[], "", query, "", [], ""⟩

/-- The record returned by `Orchestrator.invoke`
(orchestrator.py lines 158-163). -/
structure InvokeResult where
  query : String
  domain : String
  answer : String
  context : List (String × String)
deriving DecidableEq

/-- `Orchestrator.invoke` (orchestrator.py lines 138-163), given the outcome
of the classifier's LLM call: a raised exception propagates; otherwise the
graph runs to completion and the result record is assembled. -/
def orchestrator_invoke (llmResp : Except String String) (query : String) :
    Except String InvokeResult :=
  match llmResp with
  | Except.error e => Except.error e
  | Except.ok raw =>
    match graph_invoke raw (initial_state query) with
    | Except.error e => Except.error e
    | Except.ok s => Except.ok ⟨query, s.domain, s.answer, s.context⟩

/-- Spec-side statement of the placeholder answers: the expected answer
string for each resolved domain, written from the spec's description of the
placeholder nodes (compared against the code-derived `orchestrator_invoke`
in the refinement theorem below). -/
def spec_placeholder_answer (domain query : String) : String :=
  if domain = "CAPITAL" then "Capital agent processing: " ++ query
  else if domain = "FAIRNESS" then "Fairness agent processing: " ++ query
  else if domain = "OPS" then "Ops agent processing: " ++ query
  else "Regulatory agent processing: " ++ query

/-! ### Helper lemmas -/

/-- The running Python minimum is a lower bound for its seed and for every
element of the list. -/
lemma pyMin_le (x : ℚ) (l : List ℚ) : pyMin x l ≤ x ∧ ∀ y ∈ l, pyMin x l ≤ y := by
  induction l generalizing x with
  | nil => exact ⟨le_refl x, fun y hy => absurd hy (List.not_mem_nil y)⟩
  | cons z zs ih =>
    have h := ih (if z < x then z else x)
    have hseed : pyMin x (z :: zs) = pyMin (if z < x then z else x) zs := rfl
    constructor
    · rw [hseed]
      refine le_trans h.1 ?_
      split_ifs with hz
      · exact le_of_lt hz
      · exact le_refl x
    · intro y hy
      rcases List.mem_cons.mp hy with rfl | hy'
      · rw [hseed]
        refine le_trans h.1 ?_
        split_ifs with hz
        · exact le_refl y
        · exact le_of_not_lt hz
      · rw [hseed]
        exact h.2 y hy'

/-- The running Python minimum is either the seed or an element of the list. -/
lemma pyMin_mem (x : ℚ) (l : List ℚ) : pyMin x l = x ∨ pyMin x l ∈ l := by
  induction l generalizing x with
  | nil => exact Or.inl rfl
  | cons z zs ih =>
    have hseed : pyMin x (z :: zs) = pyMin (if z < x then z else x) zs := rfl
    rcases ih (if z < x then z else x) with h | h
    · rw [hseed, h]
      split_ifs
      · exact Or.inr (List.mem_cons_self _ _)
      · exact Or.inl rfl
    · rw [hseed]
      exact Or.inr (List.mem_cons_of_mem _ h)

/-- `min_ratio_of` bounds every ratio value from below. -/
lemma min_ratio_of_le (r : List (String × ℚ)) :
    ∀ p ∈ r, min_ratio_of r ≤ p.2 := by
  intro p hp
  cases r with
  | nil => exact absurd hp (List.not_mem_nil p)
  | cons a as =>
    have hdef : min_ratio_of (a :: as) = pyMin a.2 (as.map Prod.snd) := rfl
    rw [hdef]
    rcases List.mem_cons.mp hp with heq | hp'
    · rw [heq]
      exact (pyMin_le a.2 (as.map Prod.snd)).1
    · exact (pyMin_le a.2 (as.map Prod.snd)).2 p.2 (List.mem_map_of_mem Prod.snd hp')

/-- For a nonempty ratios dictionary, `min_ratio_of` is one of its values. -/
lemma min_ratio_of_mem (r : List (String × ℚ)) (hr : r ≠ []) :
    min_ratio_of r ∈ r.map Prod.snd := by
  cases r with
  | nil => exact absurd rfl hr
  | cons a as =>
    have hdef : min_ratio_of (a :: as) = pyMin a.2 (as.map Prod.snd) := rfl
    rw [hdef]
    rcases pyMin_mem a.2 (as.map Prod.snd) with h | h
    · rw [h]
      exact List.mem_cons_self _ _
    · exact List.mem_cons_of_mem _ h

/-- A successful dictionary lookup means the dictionary is nonempty. -/
lemma lookupValue_ne_nil {m : Metrics} {key : String} {v : PyValue}
    (h : lookupValue m key = some v) : m ≠ [] := by
  intro hm
  rw [hm] at h
  exact Option.noConfusion h

/-- On a nonempty metrics dictionary the risk assessment reduces to the
threshold chain on the minimum ratio the code computes. -/
lemma assess_eq_chain (a : String × PyValue) (as : Metrics) :
    assess_risk_level (some (a :: as)) =
      (if min_ratio_of (getRatios (a :: as)) < mkRat 70 100 then "CRITICAL"
       else if min_ratio_of (getRatios (a :: as)) < mkRat 80 100 then "HIGH"
       else if min_ratio_of (getRatios (a :: as)) < mkRat 90 100 then "MEDIUM"
       else "LOW") := rfl

/-- With a ratios dictionary present under the expected key, the risk
assessment is the threshold chain on that dictionary's minimum. -/
lemma assess_eq_of_ratios (m : Metrics) (r : List (String × ℚ))
    (h : lookupValue m "disparate_impact_ratios" = some (PyValue.ratioDict r)) :
    assess_risk_level (some m) =
      (if min_ratio_of r < mkRat 70 100 then "CRITICAL"
       else if min_ratio_of r < mkRat 80 100 then "HIGH"
       else if min_ratio_of r < mkRat 90 100 then "MEDIUM"
       else "LOW") := by
  cases m with
  | nil => exact absurd h (by simp [lookupValue])
  | cons a as =>
    have hget : getRatios (a :: as) = r := by
      simp [getRatios, h]
    rw [assess_eq_chain, hget]

/-- The resolved domain is always a member of the valid-domain list. -/
lemma resolve_domain_mem (raw : String) : resolve_domain raw ∈ valid_domains := by
  unfold resolve_domain
  dsimp only
  split_ifs with h
  · exact h
  · decide

/-- Case split on the four possible resolved domains. -/
lemma resolve_domain_cases (raw : String) :
    resolve_domain raw = "REGULATORY" ∨ resolve_domain raw = "CAPITAL" ∨
    resolve_domain raw = "FAIRNESS" ∨ resolve_domain raw = "OPS" := by
  have h := resolve_domain_mem raw
  simpa [valid_domains] using h

/-- Closed form of `orchestrator_invoke` on a successful classifier call. -/
lemma orchestrator_invoke_ok_eq (raw q : String) :
    orchestrator_invoke (Except.ok raw) q =
      Except.ok ⟨q, resolve_domain raw,
        spec_placeholder_answer (resolve_domain raw) q, []⟩ := by
  rcases resolve_domain_cases raw with h | h | h | h <;>
    simp only [orchestrator_invoke, graph_invoke, classify_domain, route_to_agent,
      initial_state, dispatch_table, run_handler, call_regulatory_agent,
      call_capital_agent, call_fairness_agent, call_ops_agent,
      spec_placeholder_answer, h] <;>
    rfl

/-- String append with a nonempty left factor is nonempty. -/
lemma append_ne_empty_left (a b : String) (ha : a.data ≠ []) : a ++ b ≠ "" := by
  intro h
  cases a with
  | mk l =>
    cases b with
    | mk m =>
      have h2 : l ++ m = [] := congrArg String.data h
      exact ha (List.append_eq_nil.mp h2).1

/-- Every placeholder answer string is nonempty. -/
lemma spec_placeholder_answer_ne_empty (d q : String) :
    spec_placeholder_answer d q ≠ "" := by
  unfold spec_placeholder_answer
  split_ifs <;> exact append_ne_empty_left _ q (by decide)

/-! ### Claim theorems -/

/-- C1: the fairness risk-level assessment is a pure function of the minimum
value in the disparate-impact-ratios dictionary, with strict `<` thresholds:
for every metrics dictionary with a nonempty ratios entry the result is
CRITICAL below 0.70, HIGH on [0.70, 0.80), MEDIUM on [0.80, 0.90), LOW at or
above 0.90; the value the code compares is exactly the minimum of the ratio
values; absent (None) or empty metrics yield UNKNOWN. -/
theorem claim_C1_risk_level_bands (m : Metrics) (r : List (String × ℚ))
    (h : lookupValue m "disparate_impact_ratios" = some (PyValue.ratioDict r))
    (hr : r ≠ []) :
    (min_ratio_of r < mkRat 70 100 → assess_risk_level (some m) = "CRITICAL") ∧
    (mkRat 70 100 ≤ min_ratio_of r → min_ratio_of r < mkRat 80 100 →
      assess_risk_level (some m) = "HIGH") ∧
    (mkRat 80 100 ≤ min_ratio_of r → min_ratio_of r < mkRat 90 100 →
      assess_risk_level (some m) = "MEDIUM") ∧
    (mkRat 90 100 ≤ min_ratio_of r → assess_risk_level (some m) = "LOW") ∧
    (∀ p ∈ r, min_ratio_of r ≤ p.2) ∧
    min_ratio_of r ∈ r.map Prod.snd ∧
    assess_risk_level none = "UNKNOWN" ∧
    assess_risk_level (some []) = "UNKNOWN" := by
  have hd := assess_eq_of_ratios m r h
  refine ⟨?_, ?_, ?_, ?_, min_ratio_of_le r, min_ratio_of_mem r hr, rfl, rfl⟩
  · intro h1
    rw [hd, if_pos h1]
  · intro h1 h2
    rw [hd, if_neg (not_lt.mpr h1), if_pos h2]
  · intro h1 h2
    rw [hd, if_neg (not_lt.mpr (le_trans (by decide) h1)),
      if_neg (not_lt.mpr h1), if_pos h2]
  · intro h1
    rw [hd, if_neg (not_lt.mpr (le_trans (by decide) h1)),
      if_neg (not_lt.mpr (le_trans (by decide) h1)), if_neg (not_lt.mpr h1)]

/-- C1 witness: the hard-coded metrics dictionary (minimum ratio 0.78) is
assessed HIGH. -/
theorem claim_C1_witness :
    assess_risk_level (some fairness_metrics_literal) = "HIGH" :=
  (claim_C1_risk_level_bands fairness_metrics_literal
      [("race_minority_vs_majority", mkRat 78 100),
       ("gender_female_vs_male", mkRat 92 100),
       ("age_older_vs_younger", mkRat 85 100)]
      (by decide) (by decide)).2.1 (by decide) (by decide)

/-- C2: the raw classifier response is trimmed and upper-cased; a result
outside the four-member enumeration is coerced to REGULATORY, a member is
recorded unchanged, and the domain the classifier stores in the workflow
state is therefore always one of the four enumeration values. -/
theorem claim_C2_classifier_coercion (raw : String) (s : AgentState) :
    (pyUpper (pyStrip raw) ∉ valid_domains → resolve_domain raw = "REGULATORY") ∧
    (pyUpper (pyStrip raw) ∈ valid_domains →
      resolve_domain raw = pyUpper (pyStrip raw)) ∧
    (classify_domain raw s).domain = resolve_domain raw ∧
    (classify_domain raw s).domain ∈ valid_domains := by
  refine ⟨?_, ?_, rfl, ?_⟩
  · intro h
    simp [resolve_domain, h]
  · intro h
    simp [resolve_domain, h]
  · exact resolve_domain_mem raw

/-- C2 witness: a lower-case padded response resolves to its normal form,
and a hallucinated response is coerced to REGULATORY. -/
theorem claim_C2_witness :
    pyUpper (pyStrip " fairness ") ∈ valid_domains ∧
    resolve_domain " fairness " = pyUpper (pyStrip " fairness ") ∧
    pyUpper (pyStrip "banana") ∉ valid_domains ∧
    resolve_domain "banana" = "REGULATORY" :=
  ⟨by decide,
   (claim_C2_classifier_coercion " fairness " (initial_state "q")).2.1 (by decide),
   by decide,
   (claim_C2_classifier_coercion "banana" (initial_state "q")).1 (by decide)⟩

/-- C3 counterexample: at a minimum disparate-impact ratio of exactly 0.80
the code returns MEDIUM, not HIGH as the claim states — `min_ratio < 0.80`
is false at 0.80, so control falls into the `< 0.90` branch. -/
theorem claim_C3_counterexample :
    min_ratio_of [("x", mkRat 80 100)] = mkRat 80 100 ∧
    assess_risk_level (some [("disparate_impact_ratios",
      PyValue.ratioDict [("x", mkRat 80 100)])]) = "MEDIUM" ∧
    ("MEDIUM" : String) ≠ "HIGH" := by decide

/-- C3 amended: when the minimum disparate-impact ratio is exactly 0.80 the
assessment returns MEDIUM — each band's lower bound is inclusive, because the
thresholds are strict `<` upper bounds. -/
theorem claim_C3_amended_boundary (m : Metrics) (r : List (String × ℚ))
    (h : lookupValue m "disparate_impact_ratios" = some (PyValue.ratioDict r))
    (hmin : min_ratio_of r = mkRat 80 100) :
    assess_risk_level (some m) = "MEDIUM" := by
  rw [assess_eq_of_ratios m r h, hmin]
  decide

/-- C3 witness: a singleton ratios dictionary at 0.80 is assessed MEDIUM. -/
theorem claim_C3_witness :
    assess_risk_level (some [("disparate_impact_ratios",
      PyValue.ratioDict [("y", mkRat 80 100)])]) = "MEDIUM" :=
  claim_C3_amended_boundary _ [("y", mkRat 80 100)] (by decide) (by decide)

/-- C4: dispatch is total and deterministic — each of the four valid resolved
domains routes to the correspondingly named handler and no other, and equal
resolved domains always select the same handler. -/
theorem claim_C4_dispatch_total_deterministic :
    (∀ s : AgentState, s.domain = "REGULATORY" →
      dispatch_table (route_to_agent s) = some Handler.regulatory) ∧
    (∀ s : AgentState, s.domain = "CAPITAL" →
      dispatch_table (route_to_agent s) = some Handler.capital) ∧
    (∀ s : AgentState, s.domain = "FAIRNESS" →
      dispatch_table (route_to_agent s) = some Handler.fairness) ∧
    (∀ s : AgentState, s.domain = "OPS" →
      dispatch_table (route_to_agent s) = some Handler.ops) ∧
    (∀ s t : AgentState, s.domain = t.domain →
      dispatch_table (route_to_agent s) = dispatch_table (route_to_agent t)) := by
  refine ⟨?_, ?_, ?_, ?_, ?_⟩
  · intro s h
    show dispatch_table (pyLower s.domain) = _
    rw [h]
    rfl
  · intro s h
    show dispatch_table (pyLower s.domain) = _
    rw [h]
    rfl
  · intro s h
    show dispatch_table (pyLower s.domain) = _
    rw [h]
    rfl
  · intro s h
    show dispatch_table (pyLower s.domain) = _
    rw [h]
    rfl
  · intro s t h
    show dispatch_table (pyLower s.domain) = dispatch_table (pyLower t.domain)
    rw [h]

/-- C4 witness: a state resolved to CAPITAL routes to the capital handler. -/
theorem claim_C4_witness :
    dispatch_table (route_to_agent ⟨[], "", "q", "CAPITAL", [], ""⟩) =
      some Handler.capital :=
  claim_C4_dispatch_total_deterministic.2.1 ⟨[], "", "q", "CAPITAL", [], ""⟩ rfl

/-- C5: for every query, `invoke` either returns a record with the original
query unchanged, a domain inside the four-member enumeration and a nonempty
answer, or propagates the first unhandled classifier error. -/
theorem claim_C5_terminal_contract (resp : Except String String) (q : String) :
    (∀ e, resp = Except.error e → orchestrator_invoke resp q = Except.error e) ∧
    (∀ raw, resp = Except.ok raw →
      ∃ res, orchestrator_invoke resp q = Except.ok res ∧ res.query = q ∧
        res.domain ∈ valid_domains ∧ res.answer ≠ "") := by
  constructor
  · intro e he
    subst he
    rfl
  · intro raw hraw
    subst hraw
    exact ⟨_, orchestrator_invoke_ok_eq raw q, rfl, resolve_domain_mem raw,
      spec_placeholder_answer_ne_empty (resolve_domain raw) q⟩

/-- C5 witness: a concrete successful run returns the query, a valid domain
and a nonempty answer. -/
theorem claim_C5_witness :
    ∃ res, orchestrator_invoke (Except.ok " ops ") "hello" = Except.ok res ∧
      res.query = "hello" ∧ res.domain ∈ valid_domains ∧ res.answer ≠ "" :=
  (claim_C5_terminal_contract (Except.ok " ops ") "hello").2 " ops " rfl

/-- C6 counterexample: the claim fails for the regulatory handler — its
vector-similarity-search call is not wrapped in any exception handler, so a
failing search aborts the handler invocation with the error instead of
degrading to an absent auxiliary field. -/
theorem claim_C6_counterexample :
    regulatory_invoke
        (some (fun _ _ => Except.error "similarity search failed")) 3
        (Except.ok "The model is sound.") "What does SR 11-7 require?" =
      Except.error "similarity search failed" := rfl

/-- C6 amended: a failing auxiliary producer is caught at the handler
boundary for the capital and fairness handlers, which still return a result
with the answer present and the auxiliary field null (and risk level UNKNOWN
for fairness); for the regulatory handler only the absent-vector-store case
degrades, to an empty context — an exception raised by the similarity search
itself propagates out of the handler. -/
theorem claim_C6_amended_aux_failure (e answer q : String) :
    (requires_calculation q = true →
      capital_invoke (Except.error e) (Except.ok answer) q =
        Except.ok ⟨"capital", q, answer, none, extract_calculations answer⟩) ∧
    (requires_fairness_analysis q = true →
      fairness_invoke (Except.error e) (Except.ok answer) q =
        Except.ok ⟨"fairness", q, answer, none, "UNKNOWN"⟩) ∧
    (∀ k, regulatory_invoke none k (Except.ok answer) q =
      Except.ok ⟨"regulatory", q, answer, [], extract_citations answer⟩) := by
  refine ⟨?_, ?_, fun k => rfl⟩
  · intro h
    simp only [capital_invoke, call_mesh_for_capital_calc, h, if_pos]
  · intro h
    simp only [fairness_invoke, analyze_disparate_impact, h, if_pos]
    rfl

/-- C6 witness: concrete capital and fairness invocations with a failing
auxiliary producer still answer, with the auxiliary field null. -/
theorem claim_C6_witness :
    capital_invoke (Except.error "mesh down") (Except.ok "Provision noted.")
        "calculate rwa impact" =
      Except.ok ⟨"capital", "calculate rwa impact", "Provision noted.", none,
        extract_calculations "Provision noted."⟩ ∧
    fairness_invoke (Except.error "mesh down") (Except.ok "No concerns.")
        "screen for bias" =
      Except.ok ⟨"fairness", "screen for bias", "No concerns.", none, "UNKNOWN"⟩ :=
  ⟨(claim_C6_amended_aux_failure "mesh down" "Provision noted."
      "calculate rwa impact").1 (by decide),
   (claim_C6_amended_aux_failure "mesh down" "No concerns."
      "screen for bias").2.1 (by decide)⟩

/-- C7: a failing completion-service call propagates unmodified — out of the
classifier-driven workflow and out of every specialist handler's primary
answer call, for every auxiliary-producer outcome, every vector store
(present or absent) whose retrieval returned, and the ops handler; nothing
catches, retries or replaces it. -/
theorem claim_C7_llm_failure_propagates :
    (∀ e q, orchestrator_invoke (Except.error e) q = Except.error e) ∧
    (∀ e outcome q, fairness_invoke outcome (Except.error e) q = Except.error e) ∧
    (∀ e outcome q, capital_invoke outcome (Except.error e) q = Except.error e) ∧
    (∀ e vs k q docs, retrieve_context vs q k = Except.ok docs →
      regulatory_invoke vs k (Except.error e) q = Except.error e) ∧
    (∀ e q, ops_invoke (Except.error e) q = Except.error e) := by
  refine ⟨fun _ _ => rfl, fun _ _ _ => rfl, fun _ _ _ => rfl, ?_, fun _ _ => rfl⟩
  intro e vs k q docs h
  unfold regulatory_invoke
  rw [h]

/-- C7 witness: with the initialized vector store's search succeeding, a
failing completion call during the regulatory handler's primary answer call
propagates out unmodified. -/
theorem claim_C7_witness :
    regulatory_invoke
        (some (fun _ _ =>
          Except.ok ["SR 11-7 requires banks to have robust model validation frameworks."]))
        3 (Except.error "completion timeout") "What does SR 11-7 require?" =
      Except.error "completion timeout" :=
  claim_C7_llm_failure_propagates.2.2.2.1 "completion timeout"
    (some (fun _ _ =>
      Except.ok ["SR 11-7 requires banks to have robust model validation frameworks."]))
    3 "What does SR 11-7 require?"
    ["SR 11-7 requires banks to have robust model validation frameworks."] rfl

/-- C8: each needs-auxiliary-context predicate is a case-insensitive
substring membership test over the lower-cased query against its fixed
keyword set, true exactly when some keyword occurs; in particular a query
containing "calculate" (and "CECL") makes the capital predicate true. -/
theorem claim_C8_keyword_predicates (q : String) :
    (requires_calculation q = true ↔
      ∃ k, k ∈ calc_keywords ∧ pyContains (pyLower q) k = true) ∧
    (requires_fairness_analysis q = true ↔
      ∃ k, k ∈ fairness_keywords ∧ pyContains (pyLower q) k = true) ∧
    (pyContains (pyLower q) "calculate" = true →
      pyContains (pyLower q) "cecl" = true → requires_calculation q = true) := by
  refine ⟨List.any_eq_true, List.any_eq_true, ?_⟩
  intro h1 _
  exact List.any_eq_true.mpr ⟨"calculate", by decide, h1⟩

/-- C8 witness: a calculate/CECL query triggers the capital predicate and an
adverse-action query triggers the fairness predicate. -/
theorem claim_C8_witness :
    requires_calculation "Please calculate the CECL provision" = true ∧
    requires_fairness_analysis "Check adverse action notices" = true :=
  ⟨(claim_C8_keyword_predicates "Please calculate the CECL provision").2.2
      (by decide) (by decide),
   (claim_C8_keyword_predicates "Check adverse action notices").2.1.mpr
      ⟨"adverse action", by decide, by decide⟩⟩

/-- C9: the workflow's four specialist nodes are placeholders — for every
classifier output and query, the runner's answer is exactly the resolved
domain's display name followed by " agent processing: " and the original
query, so for a fixed classifier output the result is a deterministic
function of the query. -/
theorem claim_C9_placeholder_nodes (raw q : String) :
    orchestrator_invoke (Except.ok raw) q =
      Except.ok ⟨q, resolve_domain raw,
        spec_placeholder_answer (resolve_domain raw) q, []⟩ :=
  orchestrator_invoke_ok_eq raw q

/-- C10: a nonempty metrics dictionary whose disparate-impact-ratios entry is
absent or an empty dictionary is assessed LOW (the minimum defaults to 1.0),
not UNKNOWN; UNKNOWN arises exactly for a None or empty metrics value. -/
theorem claim_C10_degenerate_ratios (m : Metrics) :
    (m ≠ [] → lookupValue m "disparate_impact_ratios" = none →
      assess_risk_level (some m) = "LOW") ∧
    (lookupValue m "disparate_impact_ratios" = some (PyValue.ratioDict []) →
      assess_risk_level (some m) = "LOW") ∧
    (assess_risk_level (some m) = "UNKNOWN" ↔ m = []) ∧
    assess_risk_level none = "UNKNOWN" := by
  refine ⟨?_, ?_, ?_, rfl⟩
  · intro hne hlook
    cases m with
    | nil => exact absurd rfl hne
    | cons a as =>
      have hget : getRatios (a :: as) = [] := by
        simp [getRatios, hlook]
      rw [assess_eq_chain, hget]
      decide
  · intro hlook
    cases m with
    | nil => exact absurd hlook (by simp [lookupValue])
    | cons a as =>
      have hget : getRatios (a :: as) = [] := by
        simp [getRatios, hlook]
      rw [assess_eq_chain, hget]
      decide
  · cases m with
    | nil => exact ⟨fun _ => rfl, fun _ => rfl⟩
    | cons a as =>
      constructor
      · intro h'
        rw [assess_eq_chain] at h'
        split_ifs at h' <;> exact absurd h' (by decide)
      · intro h'
        exact absurd h' (List.cons_ne_nil a as)

/-- C10 witness: a metrics dictionary without the ratios key, and one with an
empty ratios dictionary, are both assessed LOW. -/
theorem claim_C10_witness :
    assess_risk_level (some [("model", PyValue.str "m1")]) = "LOW" ∧
    assess_risk_level (some [("disparate_impact_ratios", PyValue.ratioDict []),
      ("adverse_impact_threshold", PyValue.num (mkRat 80 100))]) = "LOW" :=
  ⟨(claim_C10_degenerate_ratios [("model", PyValue.str "m1")]).1
      (by decide) (by decide),
   (claim_C10_degenerate_ratios [("disparate_impact_ratios", PyValue.ratioDict []),
      ("adverse_impact_threshold", PyValue.num (mkRat 80 100))]).2.1 (by decide)⟩
